import Mathlib

/-!
Shallow embedding of the FastAPI Arduino logger (`src/main.py`).

The embedding models the module-level state (`logging_enabled`, `start_epoch`,
`current_session_id`, `current_session_dir`) as a `ServerState`, the disk as an
explicit file-system value (`FS`), request bodies as parsed JSON values
(`JVal`), and each route handler as a pure function from state and input to a
new state and a response value.  Wall-clock readings (`datetime.now`) are
passed as explicit `UtcTime` arguments, one per call the Python code makes.
-/

namespace ArduinoLogger

/-! ## Time values and their textual renderings -/

/-- A UTC instant, decomposed the way `datetime` exposes it: calendar fields
plus the microsecond component, together with the integral POSIX epoch value
that `int(now.timestamp())` would return. -/
structure UtcTime where
  year : Nat
  month : Nat
  day : Nat
  hour : Nat
  minute : Nat
  second : Nat
  micro : Nat
  epoch : Nat
deriving DecidableEq, Repr

/-- Zero-pad the decimal rendering of `n` to width `w` (as `strftime` and
`isoformat` do for their numeric fields). -/
def padNum (w n : Nat) : String :=
  let s := Nat.repr n
  String.mk (List.replicate (w - s.length) (Char.ofNat 48)) ++ s

/-- `utc_now_iso` from `src/main.py`: UTC timestamp with microsecond
precision, `+00:00` replaced by `Z`. -/
def utc_now_iso (t : UtcTime) : String :=
  padNum 4 t.year ++ "-" ++ padNum 2 t.month ++ "-" ++ padNum 2 t.day ++ "T" ++
    padNum 2 t.hour ++ ":" ++ padNum 2 t.minute ++ ":" ++ padNum 2 t.second ++
    "." ++ padNum 6 t.micro ++ "Z"

/-- `new_session_id` from `src/main.py`: the current UTC time formatted with
`strftime("%Y%m%d_%H%M%S")` — second resolution, the microsecond component is
discarded. -/
def new_session_id (t : UtcTime) : String :=
  padNum 4 t.year ++ padNum 2 t.month ++ padNum 2 t.day ++ "_" ++
    padNum 2 t.hour ++ padNum 2 t.minute ++ padNum 2 t.second

/-- `now.isoformat().replace("+00:00", "Z")` as used by `api_start` for
`start_time_utc`: default `isoformat` omits the microsecond field when it is
zero. -/
def iso_default (t : UtcTime) : String :=
  let base := padNum 4 t.year ++ "-" ++ padNum 2 t.month ++ "-" ++ padNum 2 t.day ++
    "T" ++ padNum 2 t.hour ++ ":" ++ padNum 2 t.minute ++ ":" ++ padNum 2 t.second
  (if t.micro = 0 then base else base ++ "." ++ padNum 6 t.micro) ++ "Z"

/-! ## JSON values (the decoded request body) -/

/-- A decoded JSON value, as `json.loads` produces it.  Numbers are modelled
as integers (the payloads the claims quantify over are integral). -/
inductive JVal where
  | jnull
  | jbool (b : Bool)
  | jnum (n : Int)
  | jstr (s : String)
  | jlist (xs : List JVal)
  | jobj (fields : List (String × JVal))

/-- Python truthiness of a decoded JSON value (`if not device_id: ...`). -/
def jTruthy : JVal → Bool
  | .jnull => false
  | .jbool b => b
  | .jnum n => n != 0
  | .jstr s => !s.isEmpty
  | .jlist xs => !xs.isEmpty
  | .jobj fs => !fs.isEmpty

/-- `dict.get(k)` on a decoded JSON object: with duplicate keys in the source
text, `json.loads` keeps the last occurrence, so lookup proceeds from the
right. -/
def jget (fields : List (String × JVal)) (k : String) : Option JVal :=
  fields.reverse.lookup k

mutual

/-- `repr(v)` of a decoded JSON value (Python `repr` of the object graph,
which is what `str` applies to the elements of containers). -/
def pyRepr : JVal → String
  | .jnull => "None"
  | .jbool b => if b then "True" else "False"
  | .jnum n => toString n
  | .jstr s => "\x27" ++ s ++ "\x27"
  | .jlist xs => "[" ++ pyReprList xs ++ "]"
  | .jobj fs => "\x7b" ++ pyReprFields fs ++ "\x7d"

/-- Comma-separated `repr`s of the elements of a decoded JSON array. -/
def pyReprList : List JVal → String
  | [] => ""
  | [x] => pyRepr x
  | x :: y :: xs => pyRepr x ++ ", " ++ pyReprList (y :: xs)

/-- Comma-separated `repr`s of the key/value pairs of a decoded JSON object. -/
def pyReprFields : List (String × JVal) → String
  | [] => ""
  | [(k, v)] => "\x27" ++ k ++ "\x27: " ++ pyRepr v
  | (k, v) :: p :: rest => "\x27" ++ k ++ "\x27: " ++ pyRepr v ++ ", " ++ pyReprFields (p :: rest)

end

/-- `str(v)`: strings render as themselves, everything else as its `repr`. -/
def pyStr : JVal → String
  | .jstr s => s
  | v => pyRepr v

/-- Lexicographic code-point comparison of character lists — the order
Python uses to compare `str` values. -/
def charListLt : List Char → List Char → Bool
  | [], [] => false
  | [], _ :: _ => true
  | _ :: _, [] => false
  | c :: cs, d :: ds =>
      if c.toNat < d.toNat then true
      else if d.toNat < c.toNat then false
      else charListLt cs ds

/-- Python `<` on strings: code-point lexicographic. -/
def strLt (a b : String) : Bool := charListLt a.data b.data

/-- Insert a string into an ascending list (code-point order, as Python
`sorted` compares `str`). -/
def insertStr (x : String) : List String → List String
  | [] => [x]
  | y :: ys => if strLt y x then y :: insertStr x ys else x :: y :: ys

/-- `sorted(...)` on a list of strings. -/
def sortStrings (l : List String) : List String :=
  l.foldr insertStr []

/-! ## File-system model

The code only ever creates directories and writes CSV files whose logical
content is a sequence of rows, each a sequence of cells already rendered to
strings by `csv.writer`/`str`.  The disk is therefore a list of directories
plus a finite map from paths to row lists. -/

/-- A filesystem path, as a list of components. -/
abbrev FsPath := List String

/-- The disk: the set of directories created so far, and the CSV files with
their rows (header row included). -/
structure FS where
  dirs : List FsPath
  files : List (FsPath × List (List String))
deriving DecidableEq, Repr

/-- `Path.exists()` for a file path. -/
def FS.existsFile (fs : FS) (p : FsPath) : Bool :=
  (fs.files.lookup p).isSome

/-- All nonempty prefixes of a path, shortest first. -/
def prefixesOf (p : FsPath) : List FsPath :=
  (List.range p.length).map (fun i => p.take (i + 1))

/-- `p.mkdir(exist_ok=True, parents=True)`: record the directory and all its
ancestors. -/
def FS.mkdirParents (fs : FS) (p : FsPath) : FS :=
  { fs with
    dirs := (prefixesOf p).foldl (fun ds q => if q ∈ ds then ds else ds ++ [q]) fs.dirs }

/-- Open a file in `"w"` mode and write `rows`: truncate if present, create
otherwise. -/
def FS.writeFile (fs : FS) (p : FsPath) (rows : List (List String)) : FS :=
  if (fs.files.lookup p).isSome then
    { fs with files := fs.files.map (fun e => if e.1 = p then (p, rows) else e) }
  else
    { fs with files := fs.files ++ [(p, rows)] }

/-- Open a file in `"a"` mode and write `rows`: append to the existing
content, creating the file when absent. -/
def FS.appendFile (fs : FS) (p : FsPath) (rows : List (List String)) : FS :=
  match fs.files.lookup p with
  | some old =>
      { fs with files := fs.files.map (fun e => if e.1 = p then (p, old ++ rows) else e) }
  | none => { fs with files := fs.files ++ [(p, rows)] }

/-- `session_dir.glob("*.csv")`: the files directly inside `dir` whose name
ends in `.csv`, in the order the filesystem lists them. -/
def FS.glob (fs : FS) (dir : FsPath) : List (FsPath × List (List String)) :=
  fs.files.filter (fun e => e.1.dropLast = dir && (e.1.getLastD "").endsWith ".csv")

/-- `SESSIONS_DIR`, created at import time next to the module. -/
def SESSIONS_DIR : FsPath := ["sessions"]

/-! ## Global server state and the response values of the routes -/

/-- The module-level mutable state of `src/main.py`, together with the disk. -/
structure ServerState where
  logging_enabled : Bool
  start_epoch : Nat
  current_session_id : Option String
  current_session_dir : Option FsPath
  fs : FS
deriving DecidableEq, Repr

/-- The state after `import`: logging disabled, no session, and only the
`sessions` directory on disk. -/
def initialState : ServerState :=
  { logging_enabled := false
    start_epoch := 0
    current_session_id := none
    current_session_dir := none
    fs := { dirs := [SESSIONS_DIR], files := [] } }

/-- Response of `POST /api/start`. -/
inductive StartOutcome where
  | alreadyRunning (session_id : Option String) (start_epoch : Nat)
  | started (session_id : String) (start_epoch : Nat) (start_time_utc : String)
deriving DecidableEq, Repr

/-- One entry of the ZIP archive streamed by `GET /api/stop`. -/
inductive ZipEntry where
  | textEntry (name content : String)
  | fileEntry (name : String) (rows : List (List String))
deriving DecidableEq, Repr

/-- Response of `GET /api/stop`. -/
inductive StopOutcome where
  | noActive
  | archive (session_id : String) (entries : List ZipEntry)
deriving DecidableEq, Repr

/-- Response of `POST /api/bulk_samples`.  `invalidJson` is the
`HTTPException(400, "Invalid JSON")`, `invalidFormat` the
`\x7b"status": "error", "reason": "invalid_format"\x7d` body, `serverCrash` an
unhandled Python exception (the handler calls `.get`/`.keys` on values it
never shape-checks). -/
inductive IngestOutcome where
  | invalidJson
  | invalidFormat
  | ok (written : Nat)
  | serverCrash
deriving DecidableEq, Repr

/-- The raw request body of an ingest call, abstracted to whether
`json.loads` succeeds and, if so, to the decoded value. -/
inductive Body where
  | malformed
  | parsed (data : JVal)

/-- Python truthiness of the `current_session_id` global (`None` and the
empty string are falsy, every other string truthy). -/
def idTruthy : Option String → Bool
  | none => false
  | some s => !s.isEmpty

/-! ## CSV helpers (`get_device_csv_path`, `ensure_device_csv`,
`append_samples`) -/

/-- `get_device_csv_path`: the device file lives in the current session
directory, or falls back to `sessions/orphan_<device>.csv` when no session
directory is set. -/
def get_device_csv_path (cur : Option FsPath) (devName : String) : FsPath :=
  match cur with
  | none => SESSIONS_DIR ++ ["orphan_" ++ devName ++ ".csv"]
  | some d => d ++ [devName ++ ".csv"]

/-- `ensure_device_csv`: if the device CSV does not exist yet, create its
parent directory and write the header row
`["server_time_utc", "device_id"] + fieldnames`. -/
def ensure_device_csv (cur : Option FsPath) (fs : FS) (devName : String)
    (fieldnames : List String) : FS :=
  let p := get_device_csv_path cur devName
  if fs.existsFile p then fs
  else (fs.mkdirParents p.dropLast).writeFile p
    [["server_time_utc", "device_id"] ++ fieldnames]

/-- `s.get(key, "")` followed by the `str` rendering that `csv.writer`
applies: the Python string form of the value, or the empty string when the
key is absent. -/
def cellOf (s : List (String × JVal)) (key : String) : String :=
  match jget s key with
  | some v => pyStr v
  | none => ""

/-- The loop body of `append_samples` for one sample: start from
`[utc_now_iso(), device_id]` and append one cell per field name, in order. -/
def sample_row (ts devName : String) (fieldnames : List String)
    (s : List (String × JVal)) : List String :=
  fieldnames.foldl (fun row key => row ++ [cellOf s key]) [ts, devName]

/-- The rows the `append_samples` loop writes, one clock reading per row.
The boolean reports an unhandled exception: a sample that is not a JSON
object has no `.get`, so Python raises after having written the earlier
rows. -/
def encode_rows (clock : Nat → UtcTime) (devName : String)
    (fieldnames : List String) : List JVal → List (List String) × Bool
  | [] => ([], false)
  | s :: rest =>
      match s with
      | .jobj f =>
          let r := encode_rows (fun n => clock (n + 1)) devName fieldnames rest
          (sample_row (utc_now_iso (clock 0)) devName fieldnames f :: r.1, r.2)
      | _ => ([], true)

/-- `append_samples`: create the parent directory, open the device CSV in
append mode and write one row per sample.  Returns the updated disk and
whether the loop raised on a non-object sample. -/
def append_samples (cur : Option FsPath) (clock : Nat → UtcTime) (fs : FS)
    (devName : String) (samples : List JVal) (fieldnames : List String) :
    FS × Bool :=
  let p := get_device_csv_path cur devName
  let fs1 := fs.mkdirParents p.dropLast
  let r := encode_rows clock devName fieldnames samples
  (fs1.appendFile p r.1, r.2)

/-! ## Route handlers -/

/-- `POST /api/start`: idempotent while logging is enabled; otherwise stamp
the epoch, mint a session id from the current time, create the session
directory and enable logging. -/
def api_start (t : UtcTime) (st : ServerState) : ServerState × StartOutcome :=
  if st.logging_enabled then
    (st, .alreadyRunning st.current_session_id st.start_epoch)
  else
    let sid := new_session_id t
    let dir := SESSIONS_DIR ++ [sid]
    ({ logging_enabled := true
       start_epoch := t.epoch
       current_session_id := some sid
       current_session_dir := some dir
       fs := st.fs.mkdirParents dir },
     .started sid t.epoch (iso_default t))

/-- `GET /api/stop`: error out unless both `current_session_dir` and
`current_session_id` are truthy; otherwise reset the session globals, then
zip the `*.csv` files of the captured directory (a placeholder `empty.txt`
when there are none).  The CSV files themselves are only read, never
removed. -/
def api_stop (st : ServerState) : ServerState × StopOutcome :=
  match st.current_session_dir, st.current_session_id with
  | some dir, some sid =>
      if sid.isEmpty then (st, .noActive)
      else
        let st1 := { st with
          logging_enabled := false
          start_epoch := 0
          current_session_id := none
          current_session_dir := none }
        let files := st.fs.glob dir
        let entries :=
          if files.isEmpty then [ZipEntry.textEntry "empty.txt" "No data collected."]
          else files.map (fun e => ZipEntry.fileEntry (e.1.getLastD "") e.2)
        (st1, .archive sid entries)
  | _, _ => (st, .noActive)

/-- `POST /api/bulk_samples`.  `tNow` is the clock reading the fallback
`new_session_id()` call would observe; `clock i` the reading `utc_now_iso()`
observes for the `i`-th row. -/
def api_bulk_samples (tNow : UtcTime) (clock : Nat → UtcTime)
    (st : ServerState) (body : Body) : ServerState × IngestOutcome :=
  match body with
  | .malformed => (st, .invalidJson)
  | .parsed data =>
      match data with
      | .jobj fields =>
          let device_id := jget fields "device_id"
          let deviceTruthy := match device_id with
            | some v => jTruthy v
            | none => false
          match jget fields "samples" with
          | some (.jlist l) =>
              if !deviceTruthy then (st, .invalidFormat)
              else
                match l with
                | [] => (st, .ok 0)
                | first :: _ =>
                    let st1 :=
                      match st.current_session_dir with
                      | some _ => st
                      | none =>
                          let fallback_id :=
                            if idTruthy st.current_session_id then
                              st.current_session_id.getD ""
                            else "orphan_" ++ new_session_id tNow
                          let d := SESSIONS_DIR ++ [fallback_id]
                          { st with
                              current_session_dir := some d
                              fs := st.fs.mkdirParents d }
                    match first with
                    | .jobj ff =>
                        let fieldnames := sortStrings (ff.map Prod.fst).dedup
                        let devName := pyStr (device_id.getD .jnull)
                        let fs1 := ensure_device_csv st1.current_session_dir st1.fs
                          devName fieldnames
                        let r := append_samples st1.current_session_dir clock fs1
                          devName l fieldnames
                        ({ st1 with fs := r.1 },
                         if r.2 then .serverCrash else .ok l.length)
                    | _ => (st1, .serverCrash)
          | _ => (st, .invalidFormat)
      | _ => (st, .serverCrash)

/-! ## Derived notions and concrete scenario states -/

/-- The outcomes of an ingest call that the spec groups under
`InvalidPayload`: the HTTP 400 for an unparsable body and the
`invalid_format` error body. -/
def isInvalidPayload : IngestOutcome → Bool
  | .invalidJson => true
  | .invalidFormat => true
  | _ => false

/-- A sample clock instant: 2024-01-02 03:04:05.000000 UTC. -/
def sampleT : UtcTime := ⟨2024, 1, 2, 3, 4, 5, 0, 1704164645⟩

/-- The same second as `sampleT` but half a second later
(2024-01-02 03:04:05.500000 UTC) — a genuinely later instant. -/
def sampleT2 : UtcTime := ⟨2024, 1, 2, 3, 4, 5, 500000, 1704164645⟩

/-- A constant clock, for scenarios where the exact per-row instants do not
matter. -/
def sampleClock : Nat → UtcTime := fun _ => sampleT

/-- Ingest body: device `dev`, one sample `\x7b"a": 1\x7d`. -/
def idleBody : Body :=
  .parsed (.jobj [("device_id", .jstr "dev"), ("samples", .jlist [.jobj [("a", .jnum 1)]])])

/-- Ingest body: device `d`, one sample `\x7b"a": 1, "b": 2\x7d` — the batch
that establishes the schema `[a, b]` for device `d`. -/
def bodyAB : Body :=
  .parsed (.jobj [("device_id", .jstr "d"),
                  ("samples", .jlist [.jobj [("a", .jnum 1), ("b", .jnum 2)]])])

/-- Ingest body: device `d`, one sample `\x7b"c": 7\x7d` — a field name
outside the schema established by `bodyAB`. -/
def newFieldBody : Body :=
  .parsed (.jobj [("device_id", .jstr "d"), ("samples", .jlist [.jobj [("c", .jnum 7)]])])

/-- The state reached from `initialState` by one `api_start` at `sampleT`. -/
def startedState : ServerState := (api_start sampleT initialState).1

/-- The state reached from `startedState` by ingesting `bodyAB`: device `d`
has its CSV with header `[server_time_utc, device_id, a, b]` and one data
row — its schema is established. -/
def establishedState : ServerState :=
  (api_bulk_samples sampleT sampleClock startedState bodyAB).1

/-! ## Helper lemmas about the file-system primitives -/

theorem files_mkdirParents (fs : FS) (p : FsPath) : (fs.mkdirParents p).files = fs.files := rfl

theorem lookup_map_update {α β : Type} [BEq α] [LawfulBEq α] [DecidableEq α]
    (l : List (α × β)) (p : α) (w : β) (h : (l.lookup p).isSome = true) :
    (l.map (fun e => if e.1 = p then (p, w) else e)).lookup p = some w := by
  induction l with
  | nil => simp [List.lookup] at h
  | cons e es ih =>
      rcases e with ⟨k, v⟩
      by_cases hk : k = p
      · rw [List.map_cons, if_pos hk]
        simp [List.lookup]
      · have hpk : (p == k) = false := beq_eq_false_iff_ne.mpr (fun hh => hk hh.symm)
        rw [List.map_cons, if_neg hk]
        simp only [List.lookup, hpk] at h ⊢
        exact ih h

theorem lookup_append_single {α β : Type} [BEq α] [LawfulBEq α]
    (l : List (α × β)) (p : α) (w : β) (h : l.lookup p = none) :
    (l ++ [(p, w)]).lookup p = some w := by
  induction l with
  | nil => simp [List.lookup]
  | cons e es ih =>
      rcases e with ⟨k, v⟩
      rcases hpk : (p == k) with _ | _
      · simp only [List.lookup, hpk, List.cons_append] at h ⊢
        exact ih h
      · simp [List.lookup, hpk] at h

theorem appendFile_lookup_some (fs : FS) (p : FsPath) (old rows : List (List String))
    (h : fs.files.lookup p = some old) :
    ((fs.appendFile p rows).files.lookup p) = some (old ++ rows) := by
  unfold FS.appendFile
  rw [h]
  exact lookup_map_update _ _ _ (by simp [h])

theorem appendFile_lookup_none (fs : FS) (p : FsPath) (rows : List (List String))
    (h : fs.files.lookup p = none) :
    ((fs.appendFile p rows).files.lookup p) = some rows := by
  unfold FS.appendFile
  rw [h]
  exact lookup_append_single _ _ _ h

theorem writeFile_lookup_none (fs : FS) (p : FsPath) (rows : List (List String))
    (h : fs.files.lookup p = none) :
    ((fs.writeFile p rows).files.lookup p) = some rows := by
  unfold FS.writeFile
  simp only [h, Option.isSome_none, Bool.false_eq_true, if_false]
  exact lookup_append_single _ _ _ h

/-! ## Helper lemmas about row encoding -/

theorem foldl_append_cells (s : List (String × JVal)) (fns : List String) (acc : List String) :
    fns.foldl (fun row key => row ++ [cellOf s key]) acc = acc ++ fns.map (cellOf s) := by
  induction fns generalizing acc with
  | nil => simp
  | cons k ks ih => simp [List.foldl_cons, ih]

theorem sample_row_eq (ts devName : String) (fieldnames : List String)
    (s : List (String × JVal)) :
    sample_row ts devName fieldnames s =
      ts :: devName :: fieldnames.map (cellOf s) := by
  simpa [sample_row] using foldl_append_cells s fieldnames [ts, devName]

theorem encode_rows_map_jobj (clock : Nat → UtcTime) (devName : String)
    (fieldnames : List String) (l : List (List (String × JVal))) :
    encode_rows clock devName fieldnames (l.map JVal.jobj) =
      (l.mapIdx (fun i f => sample_row (utc_now_iso (clock i)) devName fieldnames f),
       false) := by
  induction l generalizing clock with
  | nil => simp [encode_rows]
  | cons f fsx ih => simp [encode_rows, ih, List.mapIdx_cons]

/-! ## Claims -/

/-- C3: while a session is already Recording (`logging_enabled = true`),
`api_start` returns the running session identity and start epoch and changes
no state at all — no new identity, no reset of `start_epoch`, no touch of the
registry (`current_session_dir`) or the disk. -/
theorem C3_theorem (t : UtcTime) (st : ServerState) (h : st.logging_enabled = true) :
    api_start t st = (st, .alreadyRunning st.current_session_id st.start_epoch) := by
  simp [api_start, h]

/-- Witness for C3 at a concrete Recording state (reached by an actual
`start` followed by an accepted ingest). -/
theorem C3_witness :
    establishedState.logging_enabled = true ∧
    api_start sampleT2 establishedState =
      (establishedState, .alreadyRunning (some "20240102_030405") 1704164645) :=
  ⟨rfl, C3_theorem sampleT2 establishedState rfl⟩

/-- C4: when the controller is Idle — logging disabled and no pending
session directory — `api_stop` reports "No active session" and leaves the
whole state (globals and disk) unchanged. -/
theorem C4_theorem (st : ServerState) (_hlog : st.logging_enabled = false)
    (hdir : st.current_session_dir = none) :
    api_stop st = (st, .noActive) := by
  cases hid : st.current_session_id <;> simp [api_stop, hdir, hid]

/-- Witness for C4 at the initial (Idle) state. -/
theorem C4_witness :
    initialState.logging_enabled = false ∧
    api_stop initialState = (initialState, .noActive) :=
  ⟨rfl, C4_theorem initialState rfl rfl⟩

/-- C5 (amended): `api_stop` never touches the disk — the per-device CSV
files of the stopped session are read into the archive but are not removed;
they remain on disk after the call, so the archive is not the sole remaining
artifact. -/
theorem C5_theorem (st : ServerState) : ((api_stop st).1).fs = st.fs := by
  cases hd : st.current_session_dir with
  | none => simp [api_stop, hd]
  | some dir =>
      cases hi : st.current_session_id with
      | none => simp [api_stop, hd, hi]
      | some sid => by_cases h : sid.isEmpty <;> simp [api_stop, hd, hi, h]

/-- C5 counterexample to the claim as stated: from a Recording session with
one device file, `api_stop` succeeds (returns an archive, not an error), yet
the device CSV of the stopped session is still present on disk afterwards. -/
theorem C5_counterexample :
    (api_stop establishedState).2 ≠ StopOutcome.noActive ∧
    ((api_stop establishedState).1.fs.files.lookup
      ["sessions", "20240102_030405", "d.csv"]).isSome = true := by
  decide

/-- C7: the row written for one sample is exactly
`[timestamp, device_id, value(schema[0]), …, value(schema[k])]` — the
microsecond UTC receipt timestamp, then the device id, then one rendered cell
per schema key in order; a key absent from the sample renders as the empty
string; and an accepted batch of object samples encodes to exactly these rows
in input order (one clock reading per row), with no failure.  The encoder is
a pure function, so determinism holds by construction. -/
theorem C7_theorem (t : UtcTime) (clock : Nat → UtcTime) (devName : String)
    (fieldnames : List String) (s : List (String × JVal))
    (l : List (List (String × JVal))) :
    sample_row (utc_now_iso t) devName fieldnames s =
        utc_now_iso t :: devName :: fieldnames.map (cellOf s) ∧
    (∀ k, jget s k = none → cellOf s k = "") ∧
    encode_rows clock devName fieldnames (l.map JVal.jobj) =
      (l.mapIdx (fun i f => sample_row (utc_now_iso (clock i)) devName fieldnames f),
       false) := by
  refine ⟨sample_row_eq _ _ _ _, ?_, encode_rows_map_jobj _ _ _ _⟩
  intro k hk
  simp [cellOf, hk]

/-- Witness for C7 at a concrete timestamp, schema `[a, b]` and a sample
providing only `a`: the row is the timestamp, the device id, the rendered
`a` and an empty cell for the missing `b`. -/
theorem C7_witness :
    sample_row (utc_now_iso sampleT) "dev" ["a", "b"] [("a", .jnum 1)] =
      ["2024-01-02T03:04:05.000000Z", "dev", "1", ""] ∧
    jget [(("a" : String), JVal.jnum 1)] "b" = none := by
  have h := (C7_theorem sampleT sampleClock "dev" ["a", "b"] [("a", .jnum 1)] []).1
  exact ⟨by rw [h]; rfl, rfl⟩

/-- C8: stopping a session whose directory holds no CSV file still succeeds
and the archive contains exactly one placeholder entry (`empty.txt`,
"No data collected."), never zero entries. -/
theorem C8_theorem (st : ServerState) (dir : FsPath) (sid : String)
    (hdir : st.current_session_dir = some dir)
    (hid : st.current_session_id = some sid)
    (hne : sid.isEmpty = false)
    (hglob : st.fs.glob dir = []) :
    api_stop st =
      ({ st with logging_enabled := false, start_epoch := 0,
                 current_session_id := none, current_session_dir := none },
       .archive sid [.textEntry "empty.txt" "No data collected."]) ∧
    [ZipEntry.textEntry "empty.txt" "No data collected."].length = 1 := by
  refine ⟨?_, rfl⟩
  simp [api_stop, hdir, hid, hne, hglob]

/-- Witness for C8: stopping immediately after a start (no device ever
ingested) yields the one-entry placeholder archive. -/
theorem C8_witness :
    api_stop startedState =
      ({ startedState with logging_enabled := false, start_epoch := 0,
                           current_session_id := none, current_session_dir := none },
       .archive "20240102_030405" [.textEntry "empty.txt" "No data collected."]) ∧
    [ZipEntry.textEntry "empty.txt" "No data collected."].length = 1 :=
  C8_theorem startedState ["sessions", "20240102_030405"] "20240102_030405" rfl rfl rfl rfl

/-- C10: a well-formed ingest payload (truthy device id, `samples` a list)
whose sample list is empty returns `written = 0` and leaves the entire state
— globals and disk — unchanged, in every state, Recording or not; in
particular the no-session fallback path is not taken. -/
theorem C10_theorem (tNow : UtcTime) (clock : Nat → UtcTime) (st : ServerState)
    (fields : List (String × JVal)) (v : JVal)
    (hdev : jget fields "device_id" = some v)
    (htr : jTruthy v = true)
    (hsam : jget fields "samples" = some (.jlist [])) :
    api_bulk_samples tNow clock st (.parsed (.jobj fields)) = (st, .ok 0) := by
  simp [api_bulk_samples, hdev, hsam, htr]

/-- Witness for C10: an empty batch for device `dev` at the initial (idle)
state returns `written = 0` and changes nothing. -/
theorem C10_witness :
    api_bulk_samples sampleT sampleClock initialState
        (.parsed (.jobj [("device_id", .jstr "dev"), ("samples", .jlist [])])) =
      (initialState, .ok 0) :=
  C10_theorem sampleT sampleClock initialState
    [("device_id", .jstr "dev"), ("samples", .jlist [])] (.jstr "dev") rfl rfl rfl

/-- C1 counterexample to the claim as stated: at the initial state — logging
disabled, no session — a well-formed nonempty ingest call does NOT return
`written = 0`: it returns `written = 1`, creates the fallback orphan session
directory and writes the device CSV inside it. -/
theorem C1_counterexample :
    initialState.logging_enabled = false ∧
    initialState.current_session_dir = none ∧
    (api_bulk_samples sampleT sampleClock initialState idleBody).2 = .ok 1 ∧
    ((api_bulk_samples sampleT sampleClock initialState idleBody).1.fs.files.lookup
      ["sessions", "orphan_20240102_030405", "dev.csv"]).isSome = true ∧
    ["sessions", "orphan_20240102_030405"] ∈
      (api_bulk_samples sampleT sampleClock initialState idleBody).1.fs.dirs := by
  decide

/-- C1 (amended): an ingest call that arrives while no session is Recording
(logging disabled, no session directory, no session id) with a well-formed
nonempty batch of object samples is NOT dropped: the handler creates a
fallback orphan session directory `sessions/orphan_<timestamp id>`, writes a
header plus one row per sample into `<device>.csv` there, and returns
`written = batch size`.  Logging stays disabled. -/
theorem C1_theorem (tNow : UtcTime) (clock : Nat → UtcTime) (st : ServerState)
    (d : String) (s0 : List (String × JVal)) (rs : List (List (String × JVal)))
    (hlog : st.logging_enabled = false)
    (hdir : st.current_session_dir = none)
    (hid : st.current_session_id = none)
    (hd : d.isEmpty = false)
    (hfile : st.fs.files.lookup
      ["sessions", "orphan_" ++ new_session_id tNow, d ++ ".csv"] = none) :
    (api_bulk_samples tNow clock st
        (.parsed (.jobj [("device_id", .jstr d),
                         ("samples", .jlist (JVal.jobj s0 :: rs.map JVal.jobj))]))).2 =
      .ok (rs.length + 1) ∧
    (api_bulk_samples tNow clock st
        (.parsed (.jobj [("device_id", .jstr d),
                         ("samples",
                          .jlist (JVal.jobj s0 :: rs.map JVal.jobj))]))).1.logging_enabled
      = false ∧
    (api_bulk_samples tNow clock st
        (.parsed (.jobj [("device_id", .jstr d),
                         ("samples",
                          .jlist (JVal.jobj s0 :: rs.map JVal.jobj))]))).1.current_session_dir
      = some ["sessions", "orphan_" ++ new_session_id tNow] ∧
    (api_bulk_samples tNow clock st
        (.parsed (.jobj [("device_id", .jstr d),
                         ("samples",
                          .jlist (JVal.jobj s0 :: rs.map JVal.jobj))]))).1.fs.files.lookup
        ["sessions", "orphan_" ++ new_session_id tNow, d ++ ".csv"]
      = some ((["server_time_utc", "device_id"] ++ sortStrings (s0.map Prod.fst).dedup) ::
          (s0 :: rs).mapIdx (fun i f =>
            sample_row (utc_now_iso (clock i)) d (sortStrings (s0.map Prod.fst).dedup) f)) := by
  have hjdev : jget [("device_id", JVal.jstr d),
      ("samples", JVal.jlist (JVal.jobj s0 :: rs.map JVal.jobj))] "device_id" =
      some (.jstr d) := rfl
  have hjsam : jget [("device_id", JVal.jstr d),
      ("samples", JVal.jlist (JVal.jobj s0 :: rs.map JVal.jobj))] "samples" =
      some (.jlist (JVal.jobj s0 :: rs.map JVal.jobj)) := rfl
  have hrows := encode_rows_map_jobj clock d (sortStrings (s0.map Prod.fst).dedup) (s0 :: rs)
  simp only [List.map_cons] at hrows
  simp [api_bulk_samples, hjdev, hjsam, jTruthy, hd, hlog, hdir, hid, idTruthy,
    ensure_device_csv, append_samples, get_device_csv_path, FS.existsFile,
    files_mkdirParents, SESSIONS_DIR, hfile, hrows, pyStr,
    writeFile_lookup_none, appendFile_lookup_some, List.mapIdx_cons]

/-- Witness for the amended C1 at the initial state with one sample
`\x7b"a": 1\x7d` for device `dev`. -/
theorem C1_witness :
    (api_bulk_samples sampleT sampleClock initialState idleBody).2 = .ok 1 ∧
    (api_bulk_samples sampleT sampleClock initialState idleBody).1.logging_enabled = false ∧
    (api_bulk_samples sampleT sampleClock initialState idleBody).1.current_session_dir =
      some ["sessions", "orphan_20240102_030405"] ∧
    (api_bulk_samples sampleT sampleClock initialState idleBody).1.fs.files.lookup
        ["sessions", "orphan_20240102_030405", "dev.csv"] =
      some [["server_time_utc", "device_id", "a"],
            ["2024-01-02T03:04:05.000000Z", "dev", "1"]] :=
  C1_theorem sampleT sampleClock initialState "dev" [("a", .jnum 1)] []
    rfl rfl rfl rfl rfl

/-- C2 counterexample to the claim as stated: device `d` was established in
the running session with schema `[a, b]` (its CSV header), yet a later
ingest call carrying the out-of-schema field `c` does not fail: it returns
`written = 1` and appends a (misaligned) row to the device file. -/
theorem C2_counterexample :
    establishedState.fs.files.lookup ["sessions", "20240102_030405", "d.csv"] =
      some [["server_time_utc", "device_id", "a", "b"],
            ["2024-01-02T03:04:05.000000Z", "d", "1", "2"]] ∧
    (api_bulk_samples sampleT2 sampleClock establishedState newFieldBody).2 = .ok 1 ∧
    (api_bulk_samples sampleT2 sampleClock establishedState newFieldBody).1.fs.files.lookup
        ["sessions", "20240102_030405", "d.csv"] =
      some [["server_time_utc", "device_id", "a", "b"],
            ["2024-01-02T03:04:05.000000Z", "d", "1", "2"],
            ["2024-01-02T03:04:05.000000Z", "d", "7"]] := by
  decide

/-- C2 (amended): the handler performs no schema check at all.  With a
session directory set and the device CSV already established (whatever its
header), any well-formed batch of object samples — including one whose field
names lie outside the established schema — succeeds with
`written = batch size`, and one row per sample is appended, encoded against
the sorted field names of the current batch's own first sample rather than
the established schema. -/
theorem C2_theorem (tNow : UtcTime) (clock : Nat → UtcTime) (st : ServerState)
    (d : String) (dir : FsPath) (rows0 : List (List String))
    (s0 : List (String × JVal)) (rs : List (List (String × JVal)))
    (hdir : st.current_session_dir = some dir)
    (hd : d.isEmpty = false)
    (hfile : st.fs.files.lookup (dir ++ [d ++ ".csv"]) = some rows0) :
    (api_bulk_samples tNow clock st
        (.parsed (.jobj [("device_id", .jstr d),
                         ("samples", .jlist (JVal.jobj s0 :: rs.map JVal.jobj))]))).2 =
      .ok (rs.length + 1) ∧
    (api_bulk_samples tNow clock st
        (.parsed (.jobj [("device_id", .jstr d),
                         ("samples",
                          .jlist (JVal.jobj s0 :: rs.map JVal.jobj))]))).1.fs.files.lookup
        (dir ++ [d ++ ".csv"])
      = some (rows0 ++
          (s0 :: rs).mapIdx (fun i f =>
            sample_row (utc_now_iso (clock i)) d (sortStrings (s0.map Prod.fst).dedup) f)) := by
  have hjdev : jget [("device_id", JVal.jstr d),
      ("samples", JVal.jlist (JVal.jobj s0 :: rs.map JVal.jobj))] "device_id" =
      some (.jstr d) := rfl
  have hjsam : jget [("device_id", JVal.jstr d),
      ("samples", JVal.jlist (JVal.jobj s0 :: rs.map JVal.jobj))] "samples" =
      some (.jlist (JVal.jobj s0 :: rs.map JVal.jobj)) := rfl
  have hrows := encode_rows_map_jobj clock d (sortStrings (s0.map Prod.fst).dedup) (s0 :: rs)
  simp only [List.map_cons] at hrows
  simp [api_bulk_samples, hjdev, hjsam, jTruthy, hd, hdir, idTruthy,
    ensure_device_csv, append_samples, get_device_csv_path, FS.existsFile,
    files_mkdirParents, hfile, hrows, pyStr,
    appendFile_lookup_some, List.mapIdx_cons]

/-- Witness for the amended C2: the established device `d` accepts the
out-of-schema batch `[\x7b"c": 7\x7d]` and its file grows by one row. -/
theorem C2_witness :
    (api_bulk_samples sampleT2 sampleClock establishedState newFieldBody).2 = .ok 1 ∧
    (api_bulk_samples sampleT2 sampleClock establishedState newFieldBody).1.fs.files.lookup
        ["sessions", "20240102_030405", "d.csv"] =
      some [["server_time_utc", "device_id", "a", "b"],
            ["2024-01-02T03:04:05.000000Z", "d", "1", "2"],
            ["2024-01-02T03:04:05.000000Z", "d", "7"]] :=
  C2_theorem sampleT2 sampleClock establishedState "d" ["sessions", "20240102_030405"]
    [["server_time_utc", "device_id", "a", "b"],
     ["2024-01-02T03:04:05.000000Z", "d", "1", "2"]]
    [("c", .jnum 7)] [] rfl rfl rfl

/-- C6 counterexample to the claim as stated: two Starts from Idle at
distinct instants in the same UTC second (microseconds 0 and 500000) mint
the SAME session identity `20240102_030405` — identity is not unique per
Start. -/
theorem C6_counterexample :
    sampleT ≠ sampleT2 ∧
    (api_start sampleT initialState).2 =
      .started "20240102_030405" 1704164645 "2024-01-02T03:04:05Z" ∧
    (api_start sampleT2 ((api_stop (api_start sampleT initialState).1).1)).2 =
      .started "20240102_030405" 1704164645 "2024-01-02T03:04:05.500000Z" := by
  decide

/-- C6 (amended): a Start while Idle derives the session identity
deterministically from the start instant truncated to whole seconds
(`strftime("%Y%m%d_%H%M%S")`); identities of two Starts coincide whenever
the two instants share the same calendar second, so identities are distinct
only across Starts in distinct seconds. -/
theorem C6_theorem (t1 t2 : UtcTime) (st : ServerState)
    (hlog : st.logging_enabled = false)
    (hy : t1.year = t2.year) (hmo : t1.month = t2.month) (hda : t1.day = t2.day)
    (hh : t1.hour = t2.hour) (hmi : t1.minute = t2.minute) (hs : t1.second = t2.second) :
    (api_start t1 st).1.current_session_id = some (new_session_id t1) ∧
    new_session_id t1 = new_session_id t2 := by
  constructor
  · simp [api_start, hlog]
  · unfold new_session_id
    rw [hy, hmo, hda, hh, hmi, hs]

/-- Witness for the amended C6 at `sampleT`/`sampleT2` (same second,
different microsecond) from the initial state. -/
theorem C6_witness :
    (api_start sampleT initialState).1.current_session_id =
      some (new_session_id sampleT) ∧
    new_session_id sampleT = new_session_id sampleT2 :=
  C6_theorem sampleT sampleT2 initialState rfl rfl rfl rfl rfl rfl rfl

/-- C9: an ingest call whose payload is malformed in shape — the body does
not parse as JSON, or the decoded object has no truthy `device_id`, or its
`samples` value is not a list — fails with an InvalidPayload outcome (the
HTTP 400 or the `invalid_format` error body) and performs no processing: the
state, disk included, is unchanged. -/
theorem C9_theorem (tNow : UtcTime) (clock : Nat → UtcTime) (st : ServerState)
    (body : Body)
    (h : body = Body.malformed ∨
      ∃ fields, body = Body.parsed (.jobj fields) ∧
        ((∀ v, jget fields "device_id" = some v → jTruthy v = false) ∨
         ∀ l, jget fields "samples" ≠ some (.jlist l))) :
    (api_bulk_samples tNow clock st body).1 = st ∧
    isInvalidPayload (api_bulk_samples tNow clock st body).2 = true := by
  rcases h with rfl | ⟨fields, rfl, hcase⟩
  · exact ⟨rfl, rfl⟩
  rcases hcase with hdev | hsam
  · rcases hs : jget fields "samples" with _ | v
    · simp [api_bulk_samples, hs, isInvalidPayload]
    · cases v with
      | jlist l =>
          rcases hd : jget fields "device_id" with _ | w
          · simp [api_bulk_samples, hs, hd, isInvalidPayload]
          · have hw := hdev w hd
            simp [api_bulk_samples, hs, hd, hw, isInvalidPayload]
      | jnull => simp [api_bulk_samples, hs, isInvalidPayload]
      | jbool b => simp [api_bulk_samples, hs, isInvalidPayload]
      | jnum n => simp [api_bulk_samples, hs, isInvalidPayload]
      | jstr s => simp [api_bulk_samples, hs, isInvalidPayload]
      | jobj fs2 => simp [api_bulk_samples, hs, isInvalidPayload]
  · rcases hs : jget fields "samples" with _ | v
    · simp [api_bulk_samples, hs, isInvalidPayload]
    · cases v with
      | jlist l => exact absurd hs (hsam l)
      | jnull => simp [api_bulk_samples, hs, isInvalidPayload]
      | jbool b => simp [api_bulk_samples, hs, isInvalidPayload]
      | jnum n => simp [api_bulk_samples, hs, isInvalidPayload]
      | jstr s => simp [api_bulk_samples, hs, isInvalidPayload]
      | jobj fs2 => simp [api_bulk_samples, hs, isInvalidPayload]

/-- Witness for C9 at an unparsable body against the initial state. -/
theorem C9_witness :
    (api_bulk_samples sampleT sampleClock initialState .malformed).1 = initialState ∧
    isInvalidPayload (api_bulk_samples sampleT sampleClock initialState .malformed).2 =
      true :=
  C9_theorem sampleT sampleClock initialState .malformed (Or.inl rfl)

end ArduinoLogger
